import Mathlib

/-!
Verification of the Crawler repository (VK bilingual-post crawler).

The definitions below are a shallow embedding of the Python sources:
  src/request.py       (paginated concurrent fetch engine)
  src/vk_crawler.py    (VKCrawler: segmentation, quarantine, orchestration)
  main.py              (older crawler variant; source of the corpus-marker regex)

Text is modelled as List Char; machine integers as Nat or Int; fallible
Python code (raise ValueError and friends) as Except String.  Network and
file I/O are modelled by explicit parameters: a page environment
fp : Nat → Nat → PageResponse stands for the remote source, the completion
order of concurrent page requests is an explicit list that theorems relate
to the launched task list by a permutation hypothesis, and the quarantine
folder is a list of file contents.
-/

/-- Model of one raw VK post (an element of response.items): its timestamp
and its text.  From src/vk_crawler.py, posts are dicts with keys date and
text. -/
structure RawPost where
  date : Int
  text : List Char
deriving DecidableEq

/-- Model of the response object of one page request: item count reported by
the source and the item list.  This is the value of item.response in
VKCrawler.request. -/
structure PageResponse where
  count : Nat
  items : List RawPost
deriving DecidableEq

/-- One page task as built by the loop of bound_fetch (src/request.py,
lines 50-63): its order number (num), offset and requested count (size). -/
structure PageTask where
  num : Nat
  offset : Nat
  size : Nat
deriving DecidableEq

/-- The two successive mutations of the loop variable count in bound_fetch
(src/request.py lines 51-54): first, if count is greater than remains it
becomes remains; then, if it is greater than 100 it becomes 100. -/
def pageSize (count remains : Nat) : Nat :=
  if 100 < (if remains < count then remains else count) then 100
  else (if remains < count then remains else count)

/-- The page-building loop of bound_fetch (src/request.py lines 50-63): the
input list carries the pairs (num, offset) produced by
enumerate(range(0, count, 100)), and the loop threads the mutable
variables count and remains. -/
def pagesGo : List (Nat × Nat) → Nat → Nat → List PageTask
  | [], _, _ => []
  | (num, offset) :: rest, count, remains =>
    PageTask.mk num offset (pageSize count remains) ::
      pagesGo rest (pageSize count remains) (remains - (pageSize count remains))

/-- The pages issued by bound_fetch for a requested count.  The m-th element
of range(0, count, 100) is 100 * m, and its length is ceil(count / 100) =
(count + 99) / 100, so enumerate(range(0, count, 100)) is the list of pairs
(m, 100 * m) for m below (count + 99) / 100. -/
def pages (count : Nat) : List PageTask :=
  pagesGo ((List.range ((count + 99) / 100)).map (fun m => (m, 100 * m))) count count

/-- The results of the page tasks launched by bound_fetch, in launch order:
each task carries its order number together with the page response returned
by the source environment fp (get_json_coro returns the pair
(order, json), src/request.py line 31). -/
def taskResults (fp : Nat → Nat → PageResponse) (count : Nat) :
    List (Nat × PageResponse) :=
  (pages count).map (fun p => (p.num, fp p.offset p.size))

/-- The sort key of posts.sort(key=lambda x: x[0]) (src/request.py line
79): comparison of the order numbers. -/
def keyLE (a b : Nat × PageResponse) : Prop := a.1 ≤ b.1

/-- Strict version of the sort key, used to state that the launched task
list has strictly increasing order numbers. -/
def keyLT (a b : Nat × PageResponse) : Prop := a.1 < b.1

instance : DecidableRel keyLE := fun a b => Nat.decLe a.1 b.1

instance : IsTotal (Nat × PageResponse) keyLE := ⟨fun a b => Nat.le_total a.1 b.1⟩

instance : IsTrans (Nat × PageResponse) keyLE := ⟨fun _ _ _ h1 h2 => Nat.le_trans h1 h2⟩

instance : IsAntisymm (Nat × PageResponse) keyLT :=
  ⟨fun _ _ h1 h2 => absurd (Nat.lt_trans h1 h2) (Nat.lt_irrefl _)⟩

/-- posts.sort(key=lambda x: x[0]) (src/request.py line 79): a stable sort
of the gathered (order, json) pairs by order number. -/
def sortByKey (l : List (Nat × PageResponse)) : List (Nat × PageResponse) :=
  List.insertionSort keyLE l

/-- bound_fetch (src/request.py lines 35-83).  The argument completed is the
list of task results in the order asyncio.wait delivered them; theorems
relate it to taskResults by a permutation hypothesis.  If no task was
created the function raises ValueError (line 66); otherwise it sorts the
results by order number and returns the json payloads. -/
def bound_fetch (completed : List (Nat × PageResponse)) (count : Nat) :
    Except String (List PageResponse) :=
  if (pages count).isEmpty then .error "Wrong count given"
  else .ok ((sortByKey completed).map Prod.snd)

/-- The character class of the compiled pattern [а-яё] with re.IGNORECASE
(src/vk_crawler.py lines 207 and 222): a Cyrillic letter of the Russian
lowercase range, or its uppercase counterpart, or the letter ё in either
case. -/
def isRuChar (c : Char) : Bool :=
  ( 'а' ≤ c && c ≤ 'я') || c = 'ё' || ( 'А' ≤ c && c ≤ 'Я') || c = 'Ё'

/-- The character class of the pattern [一-鿿] (src/vk_crawler.py
line 220): a CJK unified ideograph. -/
def isZhChar (c : Char) : Bool :=
  0x4e00 ≤ c.toNat && c.toNat ≤ 0x9fff

/-- re.search of the Russian-letter class over a string: some character of
the text belongs to the class. -/
def hasRu (t : List Char) : Bool := t.any isRuChar

/-- re.search of the CJK class over a string: some character of the text
belongs to the class. -/
def hasZh (t : List Char) : Bool := t.any isZhChar

/-- Lowering of a Cyrillic capital, used to model the re.IGNORECASE flag on
the Cyrillic-literal patterns: А-Я maps to а-я, Ё maps to ё, anything else
is unchanged. -/
def lowerChar (c : Char) : Char :=
  if 'А' ≤ c && c ≤ 'Я' then Char.ofNat (c.toNat + 0x20)
  else if c = 'Ё' then 'ё' else c

/-- Whether the second list starts with the first one (character by
character). -/
def leadsWith : List Char → List Char → Bool
  | [], _ => true
  | _ :: _, [] => false
  | p :: ps, c :: cs => p = c && leadsWith ps cs

/-- Whether pat occurs as a contiguous run inside the text. -/
def hasSubstr (pat : List Char) : List Char → Bool
  | [] => leadsWith pat []
  | c :: rest => leadsWith pat (c :: rest) || hasSubstr pat rest

/-- Index of the first occurrence of pat in the text, as Python str.index
computes it before raising ValueError when absent. -/
def subIdx (pat : List Char) : List Char → Option Nat
  | [] => if leadsWith pat [] then some 0 else none
  | c :: rest =>
    if leadsWith pat (c :: rest) then some 0
    else (subIdx pat rest).map (fun n => n + 1)

/-- text.replace of the three-character pattern newline-space-newline by
two newlines (src/vk_crawler.py line 265), scanning left to right and
resuming after each replaced occurrence. -/
def replace3 : List Char → List Char
  | '\n' :: ' ' :: '\n' :: rest => '\n' :: '\n' :: replace3 rest
  | c :: rest => c :: replace3 rest
  | [] => []

/-- Python str.strip whitespace class restricted to the ASCII whitespace
characters. -/
def isWS (c : Char) : Bool :=
  c = ' ' || c = '\t' || c = '\n' || c = '\r' || c = '\x0b' || c = '\x0c'

/-- Python str.strip: drop whitespace from both ends. -/
def strip (l : List Char) : List Char :=
  (((l.dropWhile isWS).reverse).dropWhile isWS).reverse

/-- text.split of a string on newline characters; every occurrence
separates, and the empty string splits to one empty piece. -/
def splitNl : List Char → List (List Char)
  | [] => [[]]
  | '\n' :: rest => [] :: splitNl rest
  | c :: rest =>
    match splitNl rest with
    | [] => [[ c ]]
    | l :: ls => (c :: l) :: ls

/-- Whether a paragraph starts with the corpus tag character, as
text.startswith of the hash sign tests it on the unstripped paragraph
(src/vk_crawler.py line 273). -/
def startsHash : List Char → Bool
  | '#' :: _ => true
  | _ => false

/-- The six literal phrases generated by the daily-remember pattern
(src/vk_crawler.py lines 233-236): the stem ключев with ending ая or ое, a
space, then one of фраза, слово, словосочетание; trailing .* of the
pattern matches the empty string, so search success only needs one of
these. -/
def dailyPats : List (List Char) :=
  [ ("ключевая фраза").data, ("ключевая слово").data,
    ("ключевая словосочетание").data, ("ключевое фраза").data,
    ("ключевое слово").data, ("ключевое словосочетание").data ]

/-- daily_remember.search of src/vk_crawler.py line 237: the text,
case-lowered, contains one of the six generated phrases. -/
def dailyPhrase (t : List Char) : Bool :=
  dailyPats.any (fun pat => hasSubstr pat (t.map lowerChar))

/-- The corpus marker regex of main.py line 138, the hashtag used as the
request query in src/main.py: case-insensitive search of the hashtag
string.  The current VKCrawler._get_text does not test it; the definition
is only used to state claims that mention the marker. -/
def hasMarker (t : List Char) : Bool :=
  hasSubstr (("#новости_на_двух_языках").data) (t.map lowerChar)

/-- zip(paragraphs with even index, paragraphs with odd index)
(src/vk_crawler.py line 282): consecutive disjoint pairs; a trailing
unpaired element is dropped, exactly as zip truncates to the shorter
argument. -/
def pairUp {α : Type} : List α → List (α × α)
  | a :: b :: rest => (a, b) :: pairUp rest
  | _ => []

/-- The paragraph normalization of VKCrawler._get_text (src/vk_crawler.py
lines 269-274): split on newlines, keep paragraphs whose stripped length
exceeds one and which do not start (unstripped) with the hash character,
and strip the survivors. -/
def normParagraphs (t : List Char) : List (List Char) :=
  ((splitNl t).filter
    (fun p => decide (1 < (strip p).length) && !(startsHash p))).map strip

/-- The three detected languages of VKCrawler._define_language: zho for a
text with a CJK character, rus for a text with a Russian letter and no CJK
character, unknown otherwise (the empty string of the Python code). -/
inductive Lang where
  | zho
  | rus
  | unknown
deriving DecidableEq

namespace VKCrawler

/-- VKCrawler._define_language (src/vk_crawler.py lines 218-224): CJK
characters take precedence over Russian letters. -/
def define_language (t : List Char) : Lang :=
  if hasZh t then Lang.zho
  else if hasRu t then Lang.rus
  else Lang.unknown

/-- VKCrawler._swap_langs (src/vk_crawler.py lines 199-216).  For each pair
in order: if the left side has a Russian letter and the right side
classifies as Russian, raise ValueError; if the left side has a Russian
letter, keep the pair; otherwise swap it.  The Python message interpolates
the two texts; the model uses the fixed leading sentence. -/
def swap_langs : List (List Char × List Char) → Except String (List (List Char × List Char))
  | [] => .ok []
  | (lhs, rhs) :: rest =>
    if hasRu lhs && decide (define_language rhs = Lang.rus) then
      .error "There is a pair with the same languages"
    else if hasRu lhs then
      (swap_langs rest).map (fun fixed => (lhs, rhs) :: fixed)
    else
      (swap_langs rest).map (fun fixed => (rhs, lhs) :: fixed)

/-- VKCrawler._remove_trash (src/vk_crawler.py lines 226-249).  When the
daily-remember pattern occurs: locate the first blank-line separator, the
next one after it, check the span between them contains the pattern, and
splice the span out; a missing separator is the ValueError that
str.index raises, a span without the pattern is the explicit raise. -/
def remove_trash (text : List Char) : Except String (List Char) :=
  if dailyPhrase text then
    match subIdx [ '\n', '\n'] text with
    | none => .error "substring not found"
    | some start =>
      match subIdx [ '\n', '\n'] (text.drop (start + 2)) with
      | none => .error "substring not found"
      | some k =>
        let stop := start + 2 + k
        let removed := (text.drop start).take (stop - start)
        if dailyPhrase removed then
          .ok (text.take start ++ [ '\n', '\n'] ++ text.drop stop)
        else .error "Daily remember is not here"
  else .ok text

/-- The parsed text of VKCrawler._get_text: header (second element of the
first pair), header_trans (first element of the first pair) and the body
pairs. -/
structure ParsedText where
  header : List Char
  header_trans : List Char
  text : List (List Char × List Char)
deriving DecidableEq

/-- VKCrawler._get_text (src/vk_crawler.py lines 251-291): replace
newline-space-newline, remove the daily-phrase block, normalize to
paragraphs, fail on an empty or odd paragraph list, pair up, order the
pairs, and split off the header pair.  The IndexError branch is
unreachable: a nonempty even paragraph list yields at least one pair. -/
def get_text (text : List Char) : Except String ParsedText :=
  match remove_trash (replace3 text) with
  | .error e => .error e
  | .ok cleared =>
    let paragraphs := normParagraphs cleared
    if paragraphs = [] then .error "Post is empty"
    else if paragraphs.length % 2 = 1 then .error "There is odd count of paragraphs"
    else
      match swap_langs (pairUp paragraphs) with
      | .error e => .error e
      | .ok [] => .error "IndexError"
      | .ok (p0 :: rest) => .ok (ParsedText.mk p0.2 p0.1 rest)

/-- A parsed post of VKCrawler._parse_post: the parsed text plus the
formatted date. -/
structure ParsedPost where
  header : List Char
  header_trans : List Char
  text : List (List Char × List Char)
  date : List Char
deriving DecidableEq

/-- VKCrawler._parse_post (src/vk_crawler.py lines 312-340).  The date
conversion timestamp-to-local-date-to-string is abstracted by the
parameter fmt; the except AssertionError and except ValueError clauses
both re-raise, so errors of get_text pass through unchanged. -/
def parse_post (fmt : Int → List Char) (post : RawPost) : Except String ParsedPost :=
  match get_text post.text with
  | .error e => .error e
  | .ok t => .ok (ParsedPost.mk t.header t.header_trans t.text (fmt post.date))

/-- VKCrawler._parse_posts (src/vk_crawler.py lines 342-365), returning the
successfully parsed posts (first component, in post order) and the posts
appended to the skipped list (second component, in post order). -/
def parse_posts (fmt : Int → List Char) : List RawPost → List ParsedPost × List RawPost
  | [] => ([], [])
  | post :: rest =>
    let pr := parse_posts fmt rest
    match parse_post fmt post with
    | .ok pp => (pp :: pr.1, pr.2)
    | .error _ => (pr.1, post :: pr.2)

/-- The mutable state of a VKCrawler instance: results_count, posts,
parsed_posts and skipped_posts (src/vk_crawler.py lines 89-93). -/
structure CrawlerState where
  results_count : Nat
  posts : List RawPost
  parsed_posts : List ParsedPost
  skipped_posts : List RawPost
deriving DecidableEq

/-- VKCrawler.request (src/vk_crawler.py lines 171-189): reject a count
beyond results_count, fetch the pages through bound_fetch (get_json is
asyncio.run of bound_fetch), flatten the item lists with sum(posts, []),
replace the raw posts and extend parsed and skipped posts through
_parse_posts. -/
def request (fmt : Int → List Char) (completed : List (Nat × PageResponse))
    (st : CrawlerState) (count : Nat) : Except String CrawlerState :=
  if st.results_count < count then .error "There are less results"
  else
    match bound_fetch completed count with
    | .error e => .error e
    | .ok resps =>
      let posts := (resps.map (fun r => r.items)).flatten
      let pr := parse_posts fmt posts
      .ok (CrawlerState.mk st.results_count posts
        (st.parsed_posts ++ pr.1) (st.skipped_posts ++ pr.2))

/-- VKCrawler.update (src/vk_crawler.py lines 156-169): raise ValueError
when the current results count is below the old one, else request the
difference. -/
def update (fmt : Int → List Char) (completed : List (Nat × PageResponse))
    (st : CrawlerState) (last : Nat) : Except String CrawlerState :=
  if st.results_count < last then
    .error "Old results count must be <= than current count"
  else request fmt completed st (st.results_count - last)

/-- VKCrawler._parse_one_skipped_post (src/vk_crawler.py lines 464-487):
the first line of the file, stripped, is the date (parsed through strptime
and converted to a timestamp, abstracted by strp); the join of the
remaining lines is the text.  An empty file raises IndexError at
lines[0]. -/
def parse_one_skipped_post (strp : List Char → Int) (content : List Char) :
    Except String RawPost :=
  if content = [] then .error "IndexError"
  else
    .ok (RawPost.mk (strp (strip (content.takeWhile (fun c => decide (c ≠ '\n')))))
      ((content.dropWhile (fun c => decide (c ≠ '\n'))).drop 1))

/-- The iteration of VKCrawler.from_txt_to_csv over the files of the
skipped-posts folder: parse the file, try _parse_post, skip the file on
ValueError, append the parsed post otherwise. -/
def from_txt_go (strp : List Char → Int) (fmt : Int → List Char) :
    List (List Char) → CrawlerState → Except String CrawlerState
  | [], st => .ok st
  | content :: rest, st =>
    match parse_one_skipped_post strp content with
    | .error e => .error e
    | .ok post =>
      match parse_post fmt post with
      | .error _ => from_txt_go strp fmt rest st
      | .ok pp =>
        from_txt_go strp fmt rest
          (CrawlerState.mk st.results_count st.posts
            (st.parsed_posts ++ [pp]) st.skipped_posts)

/-- VKCrawler.from_txt_to_csv (src/vk_crawler.py lines 489-512): run the
repair loop over the folder contents (in listing order) and return the new
state together with the folder contents after the call; the function
contains no file deletion, so the folder is returned unchanged. -/
def from_txt_to_csv (strp : List Char → Int) (fmt : Int → List Char)
    (st : CrawlerState) (folder : List (List Char)) :
    Except String (CrawlerState × List (List Char)) :=
  (from_txt_go strp fmt folder st).map (fun st2 => (st2, folder))

/-- The posts that successfully reparse during from_txt_to_csv, in folder
order: for each file, parse it and run _parse_post, keeping the
successes. -/
def repaired (strp : List Char → Int) (fmt : Int → List Char)
    (folder : List (List Char)) : List ParsedPost :=
  folder.filterMap (fun content =>
    match parse_one_skipped_post strp content with
    | .error _ => none
    | .ok post => (parse_post fmt post).toOption)

end VKCrawler

/-- A concrete page environment used by witnesses: each page request
returns exactly the requested number of items, numbered by absolute
offset. -/
def fp0 : Nat → Nat → PageResponse :=
  fun off sz =>
    PageResponse.mk 1000 ((List.range sz).map (fun j => RawPost.mk (Int.ofNat (off + j)) []))

/-- A concrete page environment for the C10 witness: one bilingual post. -/
def wfp : Nat → Nat → PageResponse :=
  fun _ _ => PageResponse.mk 5 [RawPost.mk 7 (("Привет\n你好").data)]

/-- The initial crawler state of the C10 witness, with one already parsed
post and one already quarantined post. -/
def st0w : VKCrawler.CrawlerState :=
  VKCrawler.CrawlerState.mk 5 []
    [VKCrawler.ParsedPost.mk [] [] [] []] [RawPost.mk 9 []]

/-- The crawler state after the C10 witness request: raw posts replaced,
parsed posts extended, skipped posts untouched. -/
def st2w : VKCrawler.CrawlerState :=
  VKCrawler.CrawlerState.mk 5 [RawPost.mk 7 (("Привет\n你好").data)]
    [VKCrawler.ParsedPost.mk [] [] [] [],
     VKCrawler.ParsedPost.mk (("你好").data) (("Привет").data) [] []]
    [RawPost.mk 9 []]

theorem pageSize_eq (count remains : Nat) (h : remains ≤ count ∨ 100 ≤ count) :
    pageSize count remains = min 100 remains := by
  unfold pageSize
  split_ifs <;> omega

theorem pagesGo_eq (n : Nat) : ∀ (k i count : Nat),
    (n - 100 * i ≤ count ∨ 100 ≤ count) →
    pagesGo ((List.range' i k).map (fun m => (m, 100 * m))) count (n - 100 * i)
      = (List.range' i k).map (fun m => PageTask.mk m (100 * m) (min 100 (n - 100 * m))) := by
  intro k
  induction k with
  | zero => intro i count _; rfl
  | succ k ih =>
    intro i count hcount
    rw [List.range'_succ]
    simp only [List.map_cons, pagesGo]
    rw [pageSize_eq count (n - 100 * i) hcount]
    have h2 : (n - 100 * i) - min 100 (n - 100 * i) = n - 100 * (i + 1) := by omega
    rw [h2]
    rw [ih (i + 1) (min 100 (n - 100 * i)) (by omega)]

theorem pages_eq (n : Nat) :
    pages n = (List.range ((n + 99) / 100)).map
      (fun m => PageTask.mk m (100 * m) (min 100 (n - 100 * m))) := by
  unfold pages
  rw [List.range_eq_range']
  have h := pagesGo_eq n ((n + 99) / 100) 0 n (Or.inl (by omega))
  simpa using h

theorem sum_min_sizes : ∀ (p n : Nat), n ≤ 100 * p →
    ((List.range p).map (fun m => min 100 (n - 100 * m))).sum = n := by
  intro p
  induction p with
  | zero => intro n h; simp; omega
  | succ p ih =>
    intro n h
    rw [List.range_succ_eq_map]
    simp only [List.map_cons, List.map_map, List.sum_cons]
    have hmaps : (List.range p).map ((fun m => min 100 (n - 100 * m)) ∘ Nat.succ)
        = (List.range p).map (fun m => min 100 ((n - 100) - 100 * m)) := by
      apply List.map_congr_left
      intro m _
      simp only [Function.comp]
      omega
    rw [hmaps, ih (n - 100) (by omega)]
    omega

theorem sum_min_sizes_full : ∀ (i n : Nat), 100 * i ≤ n →
    ((List.range i).map (fun m => min 100 (n - 100 * m))).sum = 100 * i := by
  intro i
  induction i with
  | zero => intro n h; simp
  | succ i ih =>
    intro n h
    rw [List.range_succ_eq_map]
    simp only [List.map_cons, List.map_map, List.sum_cons]
    have hmaps : (List.range i).map ((fun m => min 100 (n - 100 * m)) ∘ Nat.succ)
        = (List.range i).map (fun m => min 100 ((n - 100) - 100 * m)) := by
      apply List.map_congr_left
      intro m _
      simp only [Function.comp]
      omega
    rw [hmaps, ih (n - 100) (by omega)]
    omega

theorem sortByKey_of_perm (l target : List (Nat × PageResponse))
    (hperm : l.Perm target) (hs : List.Sorted keyLT target) :
    sortByKey l = target := by
  have hperm2 : (sortByKey l).Perm target :=
    (List.perm_insertionSort keyLE l).trans hperm
  have hsorted : List.Sorted keyLE (sortByKey l) :=
    List.sorted_insertionSort keyLE l
  have htgtne : target.Pairwise (fun a b => a.1 ≠ b.1) :=
    hs.imp (fun h => Nat.ne_of_lt h)
  have hnodup : (target.map Prod.fst).Nodup := List.pairwise_map.mpr htgtne
  have hnodup2 : ((sortByKey l).map Prod.fst).Nodup :=
    ((hperm2.map Prod.fst).nodup_iff).mpr hnodup
  have hne : (sortByKey l).Pairwise (fun a b => a.1 ≠ b.1) :=
    List.pairwise_map.mp hnodup2
  have hstrict : List.Sorted keyLT (sortByKey l) := by
    have hand := List.Pairwise.and hsorted hne
    exact hand.imp (fun h => Nat.lt_of_le_of_ne h.1 h.2)
  exact List.eq_of_perm_of_sorted hperm2 hstrict hs

theorem taskResults_sorted (fp : Nat → Nat → PageResponse) (count : Nat) :
    List.Sorted keyLT (taskResults fp count) := by
  unfold taskResults
  rw [pages_eq]
  rw [List.map_map]
  apply List.pairwise_map.mpr
  have := List.sorted_lt_range ((count + 99) / 100)
  exact this.imp (fun h => h)

theorem bound_fetch_ok (fp : Nat → Nat → PageResponse) (count : Nat)
    (completed : List (Nat × PageResponse)) (hc : 1 ≤ count)
    (hperm : completed.Perm (taskResults fp count)) :
    bound_fetch completed count
      = .ok ((pages count).map (fun p => fp p.offset p.size)) := by
  unfold bound_fetch
  have hne : (pages count).isEmpty = false := by
    rw [pages_eq]
    have : 1 ≤ (count + 99) / 100 := by omega
    cases h : (count + 99) / 100 with
    | zero => omega
    | succ k => simp [List.range_succ_eq_map]
  rw [hne]
  simp only [Bool.false_eq_true, if_false]
  rw [sortByKey_of_perm completed (taskResults fp count) hperm
    (taskResults_sorted fp count)]
  unfold taskResults
  rw [List.map_map]
  rfl

theorem flatten_length : ∀ (L : List (List RawPost)),
    L.flatten.length = (L.map (fun l => l.length)).sum := by
  intro L
  induction L with
  | nil => rfl
  | cons a t ih => simp [List.flatten_cons, ih]

theorem stitched_length (fp : Nat → Nat → PageResponse) (count : Nat)
    (hfp : ∀ off sz, (fp off sz).items.length = sz) :
    (((pages count).map (fun p => fp p.offset p.size)).map
      (fun r => r.items)).flatten.length = count := by
  simp only [flatten_length, List.map_map, Function.comp_def, pages_eq]
  have hmaps : (List.range ((count + 99) / 100)).map
      (fun m => (fp (PageTask.mk m (100 * m) (min 100 (count - 100 * m))).offset
        (PageTask.mk m (100 * m) (min 100 (count - 100 * m))).size).items.length)
      = (List.range ((count + 99) / 100)).map
        (fun m => min 100 (count - 100 * m)) := by
    apply List.map_congr_left
    intro m _
    exact hfp (100 * m) (min 100 (count - 100 * m))
  rw [hmaps]
  exact sum_min_sizes ((count + 99) / 100) count (by omega)

/-- C1 (amended: the requested count must be at least 1, since bound_fetch
raises ValueError on a zero count): for every count at least 1, whatever
order the page requests complete in, bound_fetch returns the pages in
strictly-increasing-offset order with each page item list unchanged, and
the flattened item sequence consumed by VKCrawler.request has exactly
count items. -/
theorem c1_fetch_stitching (fp : Nat → Nat → PageResponse) (count : Nat)
    (completed : List (Nat × PageResponse)) (hc : 1 ≤ count)
    (hperm : completed.Perm (taskResults fp count))
    (hfp : ∀ off sz, (fp off sz).items.length = sz) :
    bound_fetch completed count
      = .ok ((pages count).map (fun p => fp p.offset p.size)) ∧
    (((pages count).map (fun p => fp p.offset p.size)).map
      (fun r => r.items)).flatten.length = count :=
  ⟨bound_fetch_ok fp count completed hc hperm, stitched_length fp count hfp⟩

/-- C1 witness: a completed list in reversed (worst-case) completion order
still stitches the 250-item fetch back in page order. -/
theorem c1_fetch_stitching_witness :
    bound_fetch ((taskResults fp0 250).reverse) 250
      = .ok ((pages 250).map (fun p => fp0 p.offset p.size)) ∧
    (((pages 250).map (fun p => fp0 p.offset p.size)).map
      (fun r => r.items)).flatten.length = 250 :=
  c1_fetch_stitching fp0 250 ((taskResults fp0 250).reverse) (by omega)
    (List.reverse_perm (taskResults fp0 250))
    (by intro off sz; simp [fp0])

/-- C1 counterexample: at count = 0 the engine does not return a sequence
at all (the claim quantifies over every count at least 0); bound_fetch
raises ValueError instead of returning the empty item list. -/
theorem c1_fetch_stitching_counterexample :
    (bound_fetch ([] : List (Nat × PageResponse)) 0).toOption = none := rfl

/-- C2: bound_fetch partitions the requested count into pages of size at
most 100 whose sizes sum to the count, with contiguous order numbers from
0 and each offset equal to the running sum of the prior page sizes; at
count = 250 it builds exactly the three pages (0,100), (100,100),
(200,50). -/
theorem c2_page_partition (count : Nat) :
    (((pages count).map (fun p => p.size)).sum = count) ∧
    ((pages count).map (fun p => p.num) = List.range (pages count).length) ∧
    (∀ p ∈ pages count, p.size ≤ 100) ∧
    (∀ i, ∀ h : i < (pages count).length,
      ((pages count).get ⟨i, h⟩).offset
        = (((pages count).take i).map (fun p => p.size)).sum) ∧
    pages 250 = [PageTask.mk 0 0 100, PageTask.mk 1 100 100, PageTask.mk 2 200 50] := by
  refine ⟨?_, ?_, ?_, ?_, by decide⟩
  · simp only [pages_eq, List.map_map, Function.comp_def]
    exact sum_min_sizes ((count + 99) / 100) count (by omega)
  · simp [pages_eq, List.map_map, Function.comp_def]
  · intro p hp
    rw [pages_eq] at hp
    simp only [List.mem_map, List.mem_range] at hp
    obtain ⟨m, _, rfl⟩ := hp
    simp only []
    omega
  · intro i h
    have hlen : (pages count).length = (count + 99) / 100 := by
      rw [pages_eq]; simp
    have h2 : i < (count + 99) / 100 := hlen ▸ h
    rw [List.get_eq_getElem]
    have key : (pages count)[i]
        = PageTask.mk i (100 * i) (min 100 (count - 100 * i)) := by
      simp [pages_eq]
    rw [key]
    have hrhs : (((pages count).take i).map (fun p => p.size)).sum = 100 * i := by
      rw [pages_eq, ← List.map_take, List.take_range, Nat.min_eq_left (Nat.le_of_lt h2),
        List.map_map]
      simp only [Function.comp_def]
      exact sum_min_sizes_full i count (by omega)
    rw [hrhs]

/-- C2 witness: the invariants evaluated at count = 250 and page index
2. -/
theorem c2_page_partition_witness :
    ((pages 250).map (fun p => p.size)).sum = 250 ∧
    ((pages 250).get ⟨2, by decide⟩).offset
      = (((pages 250).take 2).map (fun p => p.size)).sum :=
  ⟨(c2_page_partition 250).1, (c2_page_partition 250).2.2.2.1 2 (by decide)⟩

/-- C3 (amended: at count = 0 the engine builds no page task and raises
ValueError rather than returning an empty sequence): no network call is
made and the call fails. -/
theorem c3_zero_count (completed : List (Nat × PageResponse)) :
    pages 0 = [] ∧ bound_fetch completed 0 = .error "Wrong count given" :=
  ⟨rfl, rfl⟩

/-- C3 counterexample: at count = 0 bound_fetch raises ValueError, while
the claim requires the empty sequence to be returned without error. -/
theorem c3_zero_count_counterexample :
    bound_fetch ([] : List (Nat × PageResponse)) 0 = .error "Wrong count given" := rfl

theorem hasRu_of_rus (t : List Char) (h : VKCrawler.define_language t = Lang.rus) :
    hasRu t = true := by
  unfold VKCrawler.define_language at h
  split at h
  · cases h
  · split at h
    · assumption
    · cases h

/-- C6 (amended: the code raises only when the left fragment contains a
Russian letter and the right fragment classifies as Russian; in
particular every both-Russian pair anywhere in the list makes _swap_langs
raise ValueError, while a both-Chinese pair does not raise): a pair of two
Russian-classified fragments fails the whole call. -/
theorem c6_same_language_pairs (pairs : List (List Char × List Char))
    (lhs rhs : List Char) (hmem : (lhs, rhs) ∈ pairs)
    (h1 : VKCrawler.define_language lhs = Lang.rus)
    (h2 : VKCrawler.define_language rhs = Lang.rus) :
    VKCrawler.swap_langs pairs = .error "There is a pair with the same languages" := by
  induction pairs with
  | nil => cases hmem
  | cons hd tl ih =>
    obtain ⟨l, r⟩ := hd
    rw [List.mem_cons] at hmem
    rcases hmem with heq | hmem
    · injection heq with e1 e2
      subst e1
      subst e2
      simp [VKCrawler.swap_langs, hasRu_of_rus lhs h1, h2]
    · have herr := ih hmem
      simp only [VKCrawler.swap_langs]
      split_ifs with hcond hcond2
      · rfl
      · rw [herr]; rfl
      · rw [herr]; rfl

/-- C6 witness: a pair of two Russian fragments raises. -/
theorem c6_same_language_pairs_witness :
    VKCrawler.swap_langs [(("привет").data, ("пока").data)]
      = .error "There is a pair with the same languages" :=
  c6_same_language_pairs [(("привет").data, ("пока").data)]
    (("привет").data) (("пока").data) (by simp) rfl rfl

/-- C6 counterexample: a pair whose two fragments both classify as Chinese
(the same non-Unknown language) does not raise; the code swaps it and
returns successfully, contradicting the claim that every same-language
pair fails with PairingError. -/
theorem c6_same_language_pairs_counterexample :
    VKCrawler.define_language (("你好").data) = Lang.zho ∧
    VKCrawler.define_language (("再见").data) = Lang.zho ∧
    VKCrawler.swap_langs [(("你好").data, ("再见").data)]
      = .ok [(("再见").data, ("你好").data)] :=
  ⟨rfl, rfl, rfl⟩

/-- C7 (amended: the code branches on whether the left fragment contains a
Russian letter, not on the classification of exactly one side; if the left
fragment has a Russian letter and the right does not classify as Russian,
the pair passes through unchanged; if the left fragment has no Russian
letter, including pairs with both sides Unknown, the fragments are
swapped). -/
theorem c7_pair_ordering (lhs rhs : List Char) (rest : List (List Char × List Char)) :
    (hasRu lhs = true → ¬ (VKCrawler.define_language rhs = Lang.rus) →
      VKCrawler.swap_langs ((lhs, rhs) :: rest)
        = (VKCrawler.swap_langs rest).map (fun fixed => (lhs, rhs) :: fixed)) ∧
    (hasRu lhs = false →
      VKCrawler.swap_langs ((lhs, rhs) :: rest)
        = (VKCrawler.swap_langs rest).map (fun fixed => (rhs, lhs) :: fixed)) := by
  constructor
  · intro h1 h2
    simp [VKCrawler.swap_langs, h1, h2]
  · intro h1
    simp [VKCrawler.swap_langs, h1]

/-- C7 witness: a Russian-first pair is kept, a Latin-only (Unknown) pair
is swapped. -/
theorem c7_pair_ordering_witness :
    VKCrawler.swap_langs [(("привет").data, ("你好").data)]
      = .ok [(("привет").data, ("你好").data)] ∧
    VKCrawler.swap_langs [(("abc").data, ("def").data)]
      = .ok [(("def").data, ("abc").data)] := by
  constructor
  · rw [(c7_pair_ordering (("привет").data) (("你好").data) []).1 rfl (by decide)]
    rfl
  · rw [(c7_pair_ordering (("abc").data) (("def").data) []).2 rfl]
    rfl

/-- C7 counterexample: a pair whose two fragments are both Unknown is
swapped by the code, while the claim requires it to pass through in
unchanged order. -/
theorem c7_pair_ordering_counterexample :
    VKCrawler.define_language (("ab").data) = Lang.unknown ∧
    VKCrawler.define_language (("cd").data) = Lang.unknown ∧
    VKCrawler.swap_langs [(("ab").data, ("cd").data)]
      = .ok [(("cd").data, ("ab").data)] ∧
    ((("cd").data, ("ab").data) : List Char × List Char) ≠ ((("ab").data, ("cd").data)) :=
  ⟨rfl, rfl, rfl, by decide⟩

theorem pairUp_length {α : Type} : ∀ (l : List α), (pairUp l).length = l.length / 2
  | [] => by simp [pairUp]
  | [_] => by simp [pairUp]
  | _ :: _ :: rest => by
    simp only [pairUp, List.length_cons]
    rw [pairUp_length rest]
    omega

theorem swap_langs_ok (pairs : List (List Char × List Char))
    (h : pairs.all (fun pr =>
      !(hasRu pr.1 && decide (VKCrawler.define_language pr.2 = Lang.rus))) = true) :
    ∃ res, VKCrawler.swap_langs pairs = .ok res ∧ res.length = pairs.length := by
  induction pairs with
  | nil => exact ⟨[], rfl, rfl⟩
  | cons hd tl ih =>
    rw [List.all_cons, Bool.and_eq_true] at h
    obtain ⟨hhd, htl⟩ := h
    obtain ⟨res, hres, hlen⟩ := ih htl
    obtain ⟨l, r⟩ := hd
    simp only [Bool.not_eq_eq_eq_not, Bool.not_true] at hhd
    cases hhr : hasRu l with
    | true =>
      have hd2 : decide (VKCrawler.define_language r = Lang.rus) = false := by
        rw [hhr] at hhd
        simpa using hhd
      refine ⟨(l, r) :: res, ?_, by simp [hlen]⟩
      simp [VKCrawler.swap_langs, hhr, hd2, hres, Except.map]
    | false =>
      refine ⟨(r, l) :: res, ?_, by simp [hlen]⟩
      simp [VKCrawler.swap_langs, hhr, hres, Except.map]

/-- C4 (amended: the bilingual-pair hypothesis must be the condition the
code actually tests, namely that no candidate pair has a left fragment
containing a Russian letter while its right fragment classifies as
Russian; a genuinely bilingual (Chinese, Russian) pair whose Chinese side
contains a stray Russian letter still fails): under that hypothesis, with
the marker present, a well-formed daily-phrase block or none, and an even
positive surviving paragraph count, _get_text succeeds, the first ordered
pair becomes the header, and the body length is paragraphCount/2 - 1. -/
theorem c4_segmentation_success (text t2 : List Char)
    (_hmarker : hasMarker text = true)
    (h1 : VKCrawler.remove_trash (replace3 text) = .ok t2)
    (h2 : normParagraphs t2 ≠ [])
    (h3 : (normParagraphs t2).length % 2 = 0)
    (h4 : (pairUp (normParagraphs t2)).all
      (fun pr => !(hasRu pr.1 && decide (VKCrawler.define_language pr.2 = Lang.rus))) = true) :
    ∃ p0 rest, VKCrawler.swap_langs (pairUp (normParagraphs t2)) = .ok (p0 :: rest) ∧
      VKCrawler.get_text text = .ok (VKCrawler.ParsedText.mk p0.2 p0.1 rest) ∧
      rest.length = (normParagraphs t2).length / 2 - 1 := by
  obtain ⟨res, hres, hlen⟩ := swap_langs_ok _ h4
  have hplen : (pairUp (normParagraphs t2)).length = (normParagraphs t2).length / 2 :=
    pairUp_length _
  have h0 : (normParagraphs t2).length ≠ 0 := by
    intro hz
    exact h2 (List.length_eq_zero.mp hz)
  have hge : 2 ≤ (normParagraphs t2).length := by omega
  have hresne : res ≠ [] := by
    intro hz
    rw [hz] at hlen
    simp only [List.length_nil] at hlen
    omega
  obtain ⟨p0, rest, rfl⟩ := List.exists_cons_of_ne_nil hresne
  refine ⟨p0, rest, hres, ?_, ?_⟩
  · simp only [VKCrawler.get_text, h1]
    rw [if_neg h2]
    have hodd : ¬ ((normParagraphs t2).length % 2 = 1) := by omega
    rw [if_neg hodd, hres]
  · have hl2 : (p0 :: rest).length = (normParagraphs t2).length / 2 := by
      rw [hlen, hplen]
    simp only [List.length_cons] at hl2
    omega

/-- C4 witness: a concrete four-paragraph bilingual post with the marker
and no daily-phrase block. -/
theorem c4_segmentation_success_witness :
    ∃ p0 rest,
      VKCrawler.swap_langs (pairUp (normParagraphs
        (("#Новости_на_двух_языках\nПривет мир\n你好世界\nКак дела\n最近怎么样").data)))
        = .ok (p0 :: rest) ∧
      VKCrawler.get_text (("#Новости_на_двух_языках\nПривет мир\n你好世界\nКак дела\n最近怎么样").data)
        = .ok (VKCrawler.ParsedText.mk p0.2 p0.1 rest) ∧
      rest.length = (normParagraphs
        (("#Новости_на_двух_языках\nПривет мир\n你好世界\nКак дела\n最近怎么样").data)).length / 2 - 1 :=
  c4_segmentation_success
    (("#Новости_на_двух_языках\nПривет мир\n你好世界\nКак дела\n最近怎么样").data)
    (("#Новости_на_двух_языках\nПривет мир\n你好世界\nКак дела\n最近怎么样").data)
    rfl rfl (by decide) (by decide) (by decide)

/-- C4 counterexample: a post whose single candidate pair is bilingual in
the classification sense (left classifies Chinese, right classifies
Russian) with marker present, no daily-phrase block, and an even positive
paragraph count, on which segmentation nevertheless fails, because the
left fragment also contains Russian letters and the right fragment
classifies as Russian. -/
theorem c4_segmentation_success_counterexample :
    hasMarker (("#Новости_на_двух_языках\n中文привет\nрусский аб").data) = true ∧
    VKCrawler.define_language (("中文привет").data) = Lang.zho ∧
    VKCrawler.define_language (("русский аб").data) = Lang.rus ∧
    normParagraphs (("#Новости_на_двух_языках\n中文привет\nрусский аб").data)
      = [(("中文привет").data), (("русский аб").data)] ∧
    VKCrawler.get_text (("#Новости_на_двух_языках\n中文привет\nрусский аб").data)
      = .error "There is a pair with the same languages" :=
  ⟨rfl, rfl, rfl, rfl, rfl⟩

/-- C5 (amended: the current _get_text performs no marker check, so a post
lacking the marker is not thereby rejected; what holds is the quarantine
routing: every post whose segmentation raises is appended to the
skipped-posts list rather than dropped or parsed). -/
theorem c5_quarantine_routing (fmt : Int → List Char) (posts : List RawPost)
    (p : RawPost) (hp : p ∈ posts)
    (he : ∃ e, VKCrawler.parse_post fmt p = .error e) :
    p ∈ (VKCrawler.parse_posts fmt posts).2 := by
  induction posts with
  | nil => cases hp
  | cons q rest ih =>
    rw [List.mem_cons] at hp
    simp only [VKCrawler.parse_posts]
    rcases hp with rfl | hp
    · obtain ⟨e, he2⟩ := he
      rw [he2]
      simp
    · have hmem := ih hp
      cases hq : VKCrawler.parse_post fmt q with
      | ok pp => exact hmem
      | error e => exact List.mem_cons_of_mem q hmem

/-- C5 witness: a post with empty text fails segmentation and lands in the
skipped list. -/
theorem c5_quarantine_routing_witness :
    RawPost.mk 0 [] ∈ (VKCrawler.parse_posts (fun _ => []) [RawPost.mk 0 []]).2 :=
  c5_quarantine_routing (fun _ => []) [RawPost.mk 0 []] (RawPost.mk 0 [])
    (by simp) ⟨"Post is empty", rfl⟩

/-- C5 counterexample: a post without the corpus marker parses
successfully (it is neither failed nor quarantined), because the current
_get_text contains no marker check. -/
theorem c5_quarantine_routing_counterexample :
    hasMarker (("Привет\n你好\nПока\n再见").data) = false ∧
    VKCrawler.parse_posts (fun _ => []) [RawPost.mk 0 (("Привет\n你好\nПока\n再见").data)]
      = ([VKCrawler.ParsedPost.mk (("你好").data) (("Привет").data)
          [((("Пока").data), (("再见").data))] []], []) :=
  ⟨rfl, rfl⟩

theorem request_spec (fmt : Int → List Char) (completed : List (Nat × PageResponse))
    (st : VKCrawler.CrawlerState) (count : Nat) (st2 : VKCrawler.CrawlerState)
    (h : VKCrawler.request fmt completed st count = .ok st2) :
    (∃ resps, bound_fetch completed count = .ok resps ∧
      st2.posts = (resps.map (fun r => r.items)).flatten) ∧
    st2.parsed_posts = st.parsed_posts ++ (VKCrawler.parse_posts fmt st2.posts).1 ∧
    st2.skipped_posts = st.skipped_posts ++ (VKCrawler.parse_posts fmt st2.posts).2 ∧
    st2.results_count = st.results_count := by
  unfold VKCrawler.request at h
  split at h
  · cases h
  · cases hbf : bound_fetch completed count with
    | error e => rw [hbf] at h; cases h
    | ok resps =>
      rw [hbf] at h
      simp only [] at h
      injection h with h2
      subst h2
      exact ⟨⟨resps, rfl, rfl⟩, rfl, rfl, rfl⟩

theorem update_eq_request (fmt : Int → List Char) (completed : List (Nat × PageResponse))
    (st : VKCrawler.CrawlerState) (last : Nat) (h : last ≤ st.results_count) :
    VKCrawler.update fmt completed st last
      = VKCrawler.request fmt completed st (st.results_count - last) := by
  unfold VKCrawler.update
  rw [if_neg (by omega)]

/-- C8 (amended: when the probed total equals the baseline, update calls
request with count 0, which raises ValueError from the zero-count fetch
instead of fetching zero items; in every other non-error case update is
exactly request of the difference, which fetches exactly that many
items). -/
theorem c8_incremental (fmt : Int → List Char) (completed : List (Nat × PageResponse))
    (st : VKCrawler.CrawlerState) (last : Nat) (fp : Nat → Nat → PageResponse) :
    (st.results_count < last →
      VKCrawler.update fmt completed st last
        = .error "Old results count must be <= than current count") ∧
    (last ≤ st.results_count →
      VKCrawler.update fmt completed st last
        = VKCrawler.request fmt completed st (st.results_count - last)) ∧
    (st.results_count = last →
      VKCrawler.update fmt completed st last = .error "Wrong count given") ∧
    (last ≤ st.results_count → 1 ≤ st.results_count - last →
      completed.Perm (taskResults fp (st.results_count - last)) →
      (∀ off sz, (fp off sz).items.length = sz) →
      ∃ st2, VKCrawler.update fmt completed st last = .ok st2 ∧
        st2.posts.length = st.results_count - last) := by
  refine ⟨?_, ?_, ?_, ?_⟩
  · intro h
    unfold VKCrawler.update
    rw [if_pos h]
  · intro h
    exact update_eq_request fmt completed st last h
  · intro h
    rw [update_eq_request fmt completed st last (by omega)]
    have h0 : st.results_count - last = 0 := by omega
    rw [h0]
    unfold VKCrawler.request
    rw [if_neg (by omega)]
    rfl
  · intro h1 h2 hperm hfp
    rw [update_eq_request fmt completed st last h1]
    have hbf := bound_fetch_ok fp (st.results_count - last) completed h2 hperm
    unfold VKCrawler.request
    rw [if_neg (by omega), hbf]
    exact ⟨_, rfl, stitched_length fp (st.results_count - last) hfp⟩

/-- C8 witness: a shrunken total raises the invariant error, an equal
total raises the zero-count fetch error, and a larger total fetches
exactly the difference. -/
theorem c8_incremental_witness :
    VKCrawler.update (fun _ => []) [] (VKCrawler.CrawlerState.mk 50 [] [] []) 100
      = .error "Old results count must be <= than current count" ∧
    VKCrawler.update (fun _ => []) [] (VKCrawler.CrawlerState.mk 100 [] [] []) 100
      = .error "Wrong count given" ∧
    (∃ st2, VKCrawler.update (fun _ => []) (taskResults fp0 2)
        (VKCrawler.CrawlerState.mk 102 [] [] []) 100 = .ok st2 ∧
      st2.posts.length = 102 - 100) :=
  ⟨(c8_incremental (fun _ => []) [] (VKCrawler.CrawlerState.mk 50 [] [] []) 100 fp0).1
      (by decide),
   (c8_incremental (fun _ => []) [] (VKCrawler.CrawlerState.mk 100 [] [] []) 100 fp0).2.2.1
      rfl,
   (c8_incremental (fun _ => []) (taskResults fp0 2)
      (VKCrawler.CrawlerState.mk 102 [] [] []) 100 fp0).2.2.2
      (by decide) (by decide) (List.Perm.refl (taskResults fp0 2))
      (by intro off sz; simp [fp0])⟩

/-- C8 counterexample: with the probed total equal to the baseline (both
100) update does not fetch exactly 0 newest items; it raises the
zero-count fetch ValueError. -/
theorem c8_incremental_counterexample :
    VKCrawler.update (fun _ => []) [] (VKCrawler.CrawlerState.mk 100 [] [] []) 100
      = .error "Wrong count given" := rfl

/-- C10: a successful request replaces the raw-posts list with exactly the
posts fetched by that call, appends the newly parsed posts after the
existing parsed list, and appends the newly skipped posts after the
existing skipped list; the same holds for update, which delegates to
request. -/
theorem c10_state_growth (fmt : Int → List Char) (completed : List (Nat × PageResponse))
    (st : VKCrawler.CrawlerState) :
    (∀ count st2, VKCrawler.request fmt completed st count = .ok st2 →
      (∃ resps, bound_fetch completed count = .ok resps ∧
        st2.posts = (resps.map (fun r => r.items)).flatten) ∧
      st2.parsed_posts = st.parsed_posts ++ (VKCrawler.parse_posts fmt st2.posts).1 ∧
      st2.skipped_posts = st.skipped_posts ++ (VKCrawler.parse_posts fmt st2.posts).2) ∧
    (∀ last st2, VKCrawler.update fmt completed st last = .ok st2 →
      (∃ resps, bound_fetch completed (st.results_count - last) = .ok resps ∧
        st2.posts = (resps.map (fun r => r.items)).flatten) ∧
      st2.parsed_posts = st.parsed_posts ++ (VKCrawler.parse_posts fmt st2.posts).1 ∧
      st2.skipped_posts = st.skipped_posts ++ (VKCrawler.parse_posts fmt st2.posts).2) := by
  constructor
  · intro count st2 h
    obtain ⟨a, b, c, _⟩ := request_spec fmt completed st count st2 h
    exact ⟨a, b, c⟩
  · intro last st2 h
    have hle : ¬ (st.results_count < last) := by
      intro hlt
      unfold VKCrawler.update at h
      rw [if_pos hlt] at h
      cases h
    rw [update_eq_request fmt completed st last (by omega)] at h
    obtain ⟨a, b, c, _⟩ := request_spec fmt completed st (st.results_count - last) st2 h
    exact ⟨a, b, c⟩

/-- C10 witness: a concrete one-page request on a state with prior parsed
and skipped posts. -/
theorem c10_state_growth_witness :
    (∃ resps, bound_fetch (taskResults wfp 1) 1 = .ok resps ∧
      st2w.posts = (resps.map (fun r => r.items)).flatten) ∧
    st2w.parsed_posts
      = st0w.parsed_posts ++ (VKCrawler.parse_posts (fun _ => []) st2w.posts).1 ∧
    st2w.skipped_posts
      = st0w.skipped_posts ++ (VKCrawler.parse_posts (fun _ => []) st2w.posts).2 :=
  (c10_state_growth (fun _ => []) (taskResults wfp 1) st0w).1 1 st2w rfl

theorem from_txt_go_spec (strp : List Char → Int) (fmt : Int → List Char) :
    ∀ (folder : List (List Char)) (st : VKCrawler.CrawlerState),
    (∀ c ∈ folder, c ≠ ([] : List Char)) →
    VKCrawler.from_txt_go strp fmt folder st
      = .ok (VKCrawler.CrawlerState.mk st.results_count st.posts
          (st.parsed_posts ++ VKCrawler.repaired strp fmt folder) st.skipped_posts) := by
  intro folder
  induction folder with
  | nil =>
    intro st _
    simp [VKCrawler.from_txt_go, VKCrawler.repaired]
  | cons c rest ih =>
    intro st h
    have hc : c ≠ [] := h c (List.mem_cons_self c rest)
    have hrest : ∀ x ∈ rest, x ≠ ([] : List Char) :=
      fun x hx => h x (List.mem_cons_of_mem c hx)
    have hpo : VKCrawler.parse_one_skipped_post strp c
        = .ok (RawPost.mk
          (strp (strip (c.takeWhile (fun ch => decide (ch ≠ '\n')))))
          ((c.dropWhile (fun ch => decide (ch ≠ '\n'))).drop 1)) := by
      unfold VKCrawler.parse_one_skipped_post
      rw [if_neg hc]
    simp only [VKCrawler.from_txt_go, hpo]
    cases hpp : VKCrawler.parse_post fmt (RawPost.mk
        (strp (strip (c.takeWhile (fun ch => decide (ch ≠ '\n')))))
        ((c.dropWhile (fun ch => decide (ch ≠ '\n'))).drop 1)) with
    | error e =>
      have hrep : VKCrawler.repaired strp fmt (c :: rest)
          = VKCrawler.repaired strp fmt rest := by
        simp only [VKCrawler.repaired, List.filterMap_cons, hpo, hpp, Except.toOption]
      rw [hrep]
      exact ih st hrest
    | ok pp =>
      have hrep : VKCrawler.repaired strp fmt (c :: rest)
          = pp :: VKCrawler.repaired strp fmt rest := by
        simp only [VKCrawler.repaired, List.filterMap_cons, hpo, hpp, Except.toOption]
      have hgo := ih (VKCrawler.CrawlerState.mk st.results_count st.posts
        (st.parsed_posts ++ [pp]) st.skipped_posts) hrest
      rw [hrep]
      exact hgo.trans (by simp)

/-- C9 (amended: the re-ingestion loop appends, for each entry that now
parses, a ParsedPost equal to what _parse_post produces directly on that
corrected text with the same date, and leaves failing entries alone; but
no entry is ever removed from the quarantine store: the skipped-posts
list and the folder contents are unchanged by from_txt_to_csv). -/
theorem c9_repair_no_removal (strp : List Char → Int) (fmt : Int → List Char)
    (st : VKCrawler.CrawlerState) (folder : List (List Char))
    (hne : ∀ c ∈ folder, c ≠ ([] : List Char)) :
    VKCrawler.from_txt_to_csv strp fmt st folder
      = .ok (VKCrawler.CrawlerState.mk st.results_count st.posts
          (st.parsed_posts ++ VKCrawler.repaired strp fmt folder) st.skipped_posts,
        folder) := by
  unfold VKCrawler.from_txt_to_csv
  rw [from_txt_go_spec strp fmt folder st hne]
  rfl

/-- C9 witness: a one-entry folder whose corrected text parses; the parsed
list is extended by the reparsed post and the skipped list and folder are
unchanged. -/
theorem c9_repair_no_removal_witness :
    VKCrawler.from_txt_to_csv (fun _ => 0) (fun _ => [])
      (VKCrawler.CrawlerState.mk 0 [] [] [RawPost.mk 3 []])
      [("01/01/2021\nПривет\n你好").data]
      = .ok (VKCrawler.CrawlerState.mk 0 []
          ([] ++ VKCrawler.repaired (fun _ => 0) (fun _ => [])
            [("01/01/2021\nПривет\n你好").data])
          [RawPost.mk 3 []],
        [("01/01/2021\nПривет\n你好").data]) :=
  c9_repair_no_removal (fun _ => 0) (fun _ => [])
    (VKCrawler.CrawlerState.mk 0 [] [] [RawPost.mk 3 []])
    [("01/01/2021\nПривет\n你好").data] (by decide)

/-- C9 counterexample: a corrected quarantine entry that parses
successfully is re-ingested, yet the skipped-posts store still holds its
previous entry and the folder still holds the file: nothing is removed
from quarantine, contradicting the claimed removal. -/
theorem c9_repair_no_removal_counterexample :
    VKCrawler.parse_post (fun _ => []) (RawPost.mk 0 (("Привет\n你好").data))
      = .ok (VKCrawler.ParsedPost.mk (("你好").data) (("Привет").data) [] []) ∧
    VKCrawler.from_txt_to_csv (fun _ => 0) (fun _ => [])
      (VKCrawler.CrawlerState.mk 0 [] [] [RawPost.mk 3 []])
      [("01/01/2021\nПривет\n你好").data]
      = .ok (VKCrawler.CrawlerState.mk 0 []
          [VKCrawler.ParsedPost.mk (("你好").data) (("Привет").data) [] []]
          [RawPost.mk 3 []],
        [("01/01/2021\nПривет\n你好").data]) ∧
    (VKCrawler.CrawlerState.mk 0 []
      [VKCrawler.ParsedPost.mk (("你好").data) (("Привет").data) [] []]
      [RawPost.mk 3 []]).skipped_posts ≠ ([] : List RawPost) :=
  ⟨rfl, rfl, by decide⟩
